import Mathlib

/-!
Verification development for the Double Date API repository.

The repository contains several variants of the same small service.  Each is
embedded below into pure Lean definitions:

* `Part000` — the multi-user variant `src/unnamed/part_000` (fields
  `lastQuery` / `lastProcessedQuery`, commit guarded by a day-count check).
* `ServerJs` — the JavaScript half of `src/server.js` (the "LA Timezone
  Version": a single `query` field, no day-count guard on the commit).
* `Part005` — `src/unnamed/part_005` (the "Final Clean Version": single
  `query` field, day-count guard, `- 1` in `calculateDaysLived`).
* `PyVariant` — the Python (FastAPI) half of `src/server.js`: manual calendar
  helpers `is_leap`, `days_in_month`, `days_since_epoch`, `calculate_weekday`,
  `calculate_days_lived`.
* `Part002` — the single-tenant variant `src/unnamed/part_002` with its
  `GET /status` route.

External effects (the Goo fetch and the OpenAI call) are modelled by explicit
outcome parameters; timestamps are explicit arguments; the in-memory user
record becomes a structure and each poll cycle a pure state transition that
also reports whether the OpenAI oracle endpoint was invoked.
-/

set_option maxRecDepth 4000

namespace JsDate

/-- One civil day in milliseconds (`1000 * 60 * 60 * 24` in every variant). -/
def MS_PER_DAY : Int := 86400000

/-- Gregorian leap-year rule, as implemented by the ECMAScript `Date` object
used by the JavaScript variants. -/
def gregLeap (y : Nat) : Bool := y % 4 == 0 && (y % 100 != 0 || y % 400 == 0)

/-- Length of a month in the (proleptic) Gregorian calendar; this is the
validity bound the ECMAScript `Date` parser enforces on ISO date strings. -/
def gregDaysInMonth (y m : Nat) : Nat :=
  if m = 2 then (if gregLeap y then 29 else 28)
  else if m = 4 ∨ m = 6 ∨ m = 9 ∨ m = 11 then 30 else 31

/-- Days from 1970-01-01 to the given civil date (negative for earlier dates).
This is the standard civil-from-days computation and models the epoch
arithmetic of the ECMAScript `Date` object for ISO date strings. -/
def daysFromCivil (y m d : Nat) : Int :=
  let yi : Int := (y : Int) - (if m ≤ 2 then 1 else 0)
  let era : Int := Int.fdiv yi 400
  let yoe : Int := yi - era * 400
  let mp : Int := (m : Int) + (if m ≤ 2 then 9 else -3)
  let doy : Int := Int.fdiv (153 * mp + 2) 5 + (d : Int) - 1
  let doe : Int := yoe * 365 + Int.fdiv yoe 4 - Int.fdiv yoe 100 + doy
  era * 146097 + doe - 719468

/-- Milliseconds since the epoch of the UTC midnight of a civil date. -/
def utcMidnightMs (y m d : Nat) : Int := daysFromCivil y m d * MS_PER_DAY

/-- Parse a `YYYY-MM-DD` string the way `new Date(...)` does for ISO date
forms: exactly ten characters, digits in the digit positions, hyphens in the
hyphen positions, month and day within calendar range (otherwise the JS date
is `Invalid Date` and every consumer in the sources returns `null`). -/
def parseIsoDate (s : String) : Option (Nat × Nat × Nat) :=
  match s.toList with
  | [a, b, c, d, '-', e, f, '-', g, h] =>
    if a.isDigit && b.isDigit && c.isDigit && d.isDigit &&
       e.isDigit && f.isDigit && g.isDigit && h.isDigit then
      let y := (a.toNat - 48) * 1000 + (b.toNat - 48) * 100 +
               (c.toNat - 48) * 10 + (d.toNat - 48)
      let mo := (e.toNat - 48) * 10 + (f.toNat - 48)
      let da := (g.toNat - 48) * 10 + (h.toNat - 48)
      if 1 ≤ mo ∧ mo ≤ 12 ∧ 1 ≤ da ∧ da ≤ gregDaysInMonth y mo then
        some (y, mo, da)
      else none
    else none
  | _ => none

/-- Weekday names indexed the way `Date.prototype.getDay` indexes them
(0 = Sunday), as listed in the JavaScript variants. -/
def getDayNames : List String :=
  ["Sunday", "Monday", "Tuesday", "Wednesday", "Thursday", "Friday", "Saturday"]

/-- The `getDay`-style weekday index of a civil date: 1970-01-01 was a
Thursday (index 4 with Sunday = 0). -/
def getDayIndex (y m d : Nat) : Nat := ((daysFromCivil y m d + 4).emod 7).toNat

end JsDate

namespace PyVariant

/-- `MS_PER_DAY` from the Python half of `src/server.js`. -/
def MS_PER_DAY : Int := 86400000

/-- `is_leap` from the Python half of `src/server.js`. -/
def is_leap (y : Nat) : Bool := y % 4 == 0 && (y % 100 != 0 || y % 400 == 0)

/-- `days_in_month` from the Python half of `src/server.js`
(`table[month - 1]` on the twelve-entry table). -/
def days_in_month (y m : Nat) : Nat :=
  [31, 28 + (if is_leap y then 1 else 0),
   31, 30, 31, 30, 31, 31, 30, 31, 30, 31].getD (m - 1) 0

/-- The year loop of `days_since_epoch`:
`for y in range(1970, year): days += 366 if is_leap(y) else 365`,
embedded as a recursion counting down to 1970. -/
def yearDays : Nat → Nat
  | 0 => 0
  | y + 1 => if y + 1 ≤ 1970 then 0 else yearDays y + (if is_leap y then 366 else 365)

/-- The month loop of `days_since_epoch`:
`for m in range(1, month): days += days_in_month(year, m)`. -/
def monthDays (y : Nat) : Nat → Nat
  | 0 => 0
  | m + 1 => if m + 1 ≤ 1 then 0 else monthDays y m + days_in_month y m

/-- `days_since_epoch` from the Python half of `src/server.js`. -/
def days_since_epoch (y m d : Nat) : Nat := yearDays y + monthDays y m + (d - 1)

/-- The weekday table of `calculate_weekday` (1970-01-01 was a Thursday). -/
def weekday_names : List String :=
  ["Thursday", "Friday", "Saturday", "Sunday", "Monday", "Tuesday", "Wednesday"]

/-- `calculate_weekday` from the Python half of `src/server.js`. -/
def calculate_weekday (y m d : Nat) : String :=
  weekday_names.getD (days_since_epoch y m d % 7) ""

/-- `birth_midnight_ms` from the Python half of `src/server.js`; the timezone
offset (in milliseconds) is an explicit argument standing for
`tz.utcoffset(None)`. -/
def birth_midnight_ms (y m d : Nat) (offsetMs : Int) : Int :=
  (days_since_epoch y m d : Int) * MS_PER_DAY - offsetMs

/-- `calculate_days_lived` from the Python half of `src/server.js`; `now_ms`
stands for the value of `now_ms_in_timezone` and the offset for the zone's
UTC offset.  Python `//` is floor division, i.e. `Int.fdiv`. -/
def calculate_days_lived (y m d : Nat) (nowMs offsetMs : Int) : Int :=
  Int.fdiv (nowMs - birth_midnight_ms y m d offsetMs) MS_PER_DAY

end PyVariant

namespace GregSpec

/-- Month offsets of Sakamoto's day-of-week congruence. -/
def sakamotoTable : List Nat := [0, 3, 2, 5, 0, 3, 5, 1, 4, 6, 2, 4]

/-- Modelled from the spec: the day-of-week index (0 = Sunday) of a proleptic
Gregorian calendar date, with leap years exactly the years divisible by 4
except centuries not divisible by 400 — the leap rule enters through the
`y / 4 - y / 100 + y / 400` terms of Sakamoto's standard congruence.  Defined
independently of any source variant, for comparison with them. -/
def specWeekdayIndex (y m d : Nat) : Nat :=
  let yy := if m < 3 then y - 1 else y
  (yy + yy / 4 - yy / 100 + yy / 400 + sakamotoTable.getD (m - 1) 0 + d) % 7

/-- Weekday names with Sunday first, matching `specWeekdayIndex`. -/
def specNames : List String :=
  ["Sunday", "Monday", "Tuesday", "Wednesday", "Thursday", "Friday", "Saturday"]

/-- Modelled from the spec: the proleptic Gregorian weekday name of a date. -/
def specGregorianWeekday (y m d : Nat) : String :=
  specNames.getD (specWeekdayIndex y m d) ""

end GregSpec

example : GregSpec.specGregorianWeekday 1970 1 1 = "Thursday" := by decide

example : GregSpec.specGregorianWeekday 2008 3 6 = "Thursday" := by decide

example : GregSpec.specGregorianWeekday 1969 12 31 = "Wednesday" := by decide

example : PyVariant.calculate_weekday 2008 3 6 = "Thursday" := by decide

example : PyVariant.calculate_weekday 1969 12 31 = "Thursday" := by decide

example : JsDate.daysFromCivil 1970 1 1 = 0 := by decide

example : JsDate.daysFromCivil 1969 12 31 = -1 := by decide

example : JsDate.getDayNames.getD (JsDate.getDayIndex 2008 3 6) "" = "Thursday" := by decide

namespace OracleParse

/-- ASCII whitespace removed by `String.prototype.trim` (the oracle replies
compared against the sentinel only involve ASCII). -/
def isJsWhitespace (c : Char) : Bool :=
  c = ' ' || c = '\t' || c = '\n' || c = '\r' || c = '\x0b' || c = '\x0c'

/-- `content.trim()` on the list of characters. -/
def jsTrimList (l : List Char) : List Char :=
  ((l.dropWhile isJsWhitespace).reverse.dropWhile isJsWhitespace).reverse

/-- `content.trim()`. -/
def jsTrim (s : String) : String := String.mk (jsTrimList s.toList)

/-- `content.toLowerCase()` (ASCII case folding). -/
def jsLower (s : String) : String := String.mk (s.toList.map Char.toLower)

/-- Scan forward for a closing ``` fence; returns the remainder after it. -/
def dropToClose : List Char → Option (List Char)
  | '`' :: '`' :: '`' :: rest => some rest
  | _ :: rest => dropToClose rest
  | [] => none

/-- Fuelled worker for `stripFences`; the fuel is the list length, which
bounds the number of steps. -/
def stripFencesAux : Nat → List Char → List Char
  | 0, l => l
  | fuel + 1, '`' :: '`' :: '`' :: rest =>
    match dropToClose rest with
    | some rest2 => ' ' :: stripFencesAux fuel rest2
    | none => '`' :: stripFencesAux fuel ('`' :: '`' :: rest)
  | fuel + 1, c :: rest => c :: stripFencesAux fuel rest
  | _ + 1, [] => []

/-- `content.replace(/```[\s\S]*?```/g, ' ')`: every leftmost, shortest
triple-backtick fenced block — including everything between the fences — is
replaced by a single space.  An unclosed ``` is left in place, as the regex
then fails to match at that position. -/
def stripFences (l : List Char) : List Char := stripFencesAux l.length l

/-- `content.replace(/`/g, ' ')`. -/
def stripTicks (l : List Char) : List Char := l.map (fun c => if c = '`' then ' ' else c)

/-- Try to match `\d{4}-\d{2}-\d{2}` at the head of the list. -/
def matchDateAt : List Char → Option (List Char)
  | a :: b :: c :: d :: '-' :: e :: f :: '-' :: g :: h :: _ =>
    if a.isDigit && b.isDigit && c.isDigit && d.isDigit &&
       e.isDigit && f.isDigit && g.isDigit && h.isDigit then
      some [a, b, c, d, '-', e, f, '-', g, h]
    else none
  | _ => none

/-- `content.match(/\d{4}-\d{2}-\d{2}/)`: the leftmost match, scanning one
character at a time exactly as the regex engine does. -/
def findDate : List Char → Option (List Char)
  | [] => none
  | c :: rest =>
    match matchDateAt (c :: rest) with
    | some m => some m
    | none => findDate rest

/-- Leftmost `YYYY-MM-DD`-shaped substring of a string, if any. -/
def findDateStr (s : String) : Option String := (findDate s.toList).map String.mk

/-- Result of validating the oracle's raw completion, labelled by the code
path taken: the explicit `"null"` sentinel, an accepted date string, or the
logged failure paths (missing content or no date-shaped substring).  The
JavaScript sources return `null` for both `noDate` and `failure`; the label
records which return statement fired. -/
inductive ExtractResult where
  | noDate : ExtractResult
  | failure : ExtractResult
  | date : String → ExtractResult
deriving DecidableEq, Repr

/-- Response validation of `extractDateWithOpenAI` in `src/unnamed/part_000`
and `src/unnamed/part_005` (identical code): trim, case-insensitive `"null"`
sentinel, deletion of fenced blocks, backtick removal, then the first
`YYYY-MM-DD`-shaped substring. -/
def parseContent05 (raw : String) : ExtractResult :=
  let c := jsTrim raw
  if c = "" then .failure
  else if jsLower c = "null" then .noDate
  else
    match findDate (stripTicks (stripFences c.toList)) with
    | some m => .date (String.mk m)
    | none => .failure

/-- Response validation of `extractDateWithOpenAI` in the JavaScript half of
`src/server.js`: trim, case-insensitive `"null"` sentinel, then the first
`YYYY-MM-DD`-shaped substring with no fence or backtick handling at all. -/
def parseContentSJ (raw : String) : ExtractResult :=
  let c := jsTrim raw
  if c = "" then .failure
  else if jsLower c = "null" then .noDate
  else
    match findDate c.toList with
    | some m => .date (String.mk m)
    | none => .failure

/-- The `null` the callers see: both `noDate` and `failure` collapse to
`none`, as in the sources. -/
def ExtractResult.toOption : ExtractResult → Option String
  | .noDate => none
  | .failure => none
  | .date d => some d

end OracleParse

section OracleParseChecks

example : OracleParse.parseContent05 " NULL " = .noDate := by decide

example : OracleParse.parseContent05 "2008-03-06" = .date "2008-03-06" := by decide

example : OracleParse.parseContent05 "The date is 2008-03-06." = .date "2008-03-06" := by decide

example : OracleParse.parseContent05 "```2008-03-06```" = .failure := by decide

example : OracleParse.parseContent05 "`2008-03-06`" = .date "2008-03-06" := by decide

example : OracleParse.parseContentSJ "```2008-03-06```" = .date "2008-03-06" := by decide

example : OracleParse.parseContentSJ "no date here" = .failure := by decide

end OracleParseChecks

/-- Outcome of the Goo fetch in one poll cycle, covering every behaviour of
the external source: a rejected promise, a non-success status (with
`res.text()` either succeeding or itself throwing), a body on which
`res.json()` throws, a JSON body without a string `query` field, or a string
`query`. -/
inductive FetchOutcome where
  | reject : FetchOutcome
  | notOk : FetchOutcome
  | notOkTextThrow : FetchOutcome
  | badJson : FetchOutcome
  | noQuery : FetchOutcome
  | query : String → FetchOutcome
deriving DecidableEq, Repr

/-- Outcome of the OpenAI call, when one is made: rejected promise,
non-success status (with `response.text()` succeeding or throwing), a body on
which `response.json()` throws, a body with no completion content, or the raw
completion string. -/
inductive OracleOutcome where
  | reject : OracleOutcome
  | notOk : OracleOutcome
  | notOkTextThrow : OracleOutcome
  | badJson : OracleOutcome
  | noContent : OracleOutcome
  | content : String → OracleOutcome
deriving DecidableEq, Repr

/-- How one invocation of `pollUser` ends, as seen by its caller (the
`setInterval` tick or the `/refresh` route): a normal return carrying the
resulting state and whether the OpenAI endpoint was invoked, or an exception
escaping the function.  `escaped` is only reachable from code standing
outside the `try` block. -/
inductive CycleResult (σ : Type) where
  | done : σ → Bool → CycleResult σ
  | escaped : σ → CycleResult σ
deriving DecidableEq, Repr

/-- True when the cycle escaped with an exception. -/
def CycleResult.isEscaped : CycleResult σ → Bool
  | .done _ _ => false
  | .escaped _ => true

namespace Part000

/-- The user record of `src/unnamed/part_000`.  `timerId` abstracts the
`NodeJS.Timeout` handle as the interval the active timer was started with. -/
structure User where
  userId : String
  gooUserId : Option String
  gooUrl : Option String
  openaiApiKey : String
  pollIntervalMs : Nat
  polling : Bool
  timerId : Option Nat
  lastQuery : Option String
  lastProcessedQuery : Option String
  formattedDate : Option String
  daysLived : Option Int
  lastUpdated : Option String
deriving DecidableEq, Repr

/-- `calculateDaysLived` of `src/unnamed/part_000`: birth at the UTC midnight
of the parsed date (`dateStr + 'T00:00:00Z'`), `now` an explicit argument,
`Math.floor` of the millisecond difference over one day; `null` when the date
string does not parse. -/
def calculateDaysLived (dateStr : String) (nowMs : Int) : Option Int :=
  (JsDate.parseIsoDate dateStr).map fun (y, m, d) =>
    Int.fdiv (nowMs - JsDate.utcMidnightMs y m d) JsDate.MS_PER_DAY

/-- `extractDateWithOpenAI` of `src/unnamed/part_000`: returns the extracted
date (or `none`) together with whether the OpenAI endpoint was actually
invoked — a missing (empty) key returns early without calling it.  The
function has its own internal `try`/`catch`, so it never throws. -/
def extractDateWithOpenAI (apiKey : String) (orc : OracleOutcome) : Option String × Bool :=
  if apiKey = "" then (none, false)
  else
    match orc with
    | .content s => ((OracleParse.parseContent05 s).toOption, true)
    | _ => (none, true)

/-- The body of `pollUser`'s `try` block in `src/unnamed/part_000`.  The
error case is an exception reaching the `catch`, carrying the state at the
throw point and whether the oracle had been invoked. -/
def pollBody (f : FetchOutcome) (orc : OracleOutcome) (nowMs : Int) (nowIso : String)
    (u : User) : Except (User × Bool) (User × Bool) :=
  match f with
  | .reject => .error (u, false)
  | .notOk => .ok (u, false)
  | .notOkTextThrow => .error (u, false)
  | .badJson => .error (u, false)
  | .noQuery => .ok (u, false)
  | .query t =>
    let u1 : User := { u with lastQuery := some t }
    if some t = u.lastProcessedQuery then .ok (u1, false)
    else
      match extractDateWithOpenAI u.openaiApiKey orc with
      | (none, called) => .ok (u1, called)
      | (some dstr, called) =>
        match calculateDaysLived dstr nowMs with
        | none => .ok (u1, called)
        | some days =>
          .ok ({ u1 with
                  formattedDate := some dstr
                  daysLived := some days
                  lastProcessedQuery := some t
                  lastUpdated := some nowIso }, called)

/-- One invocation of `pollUser` in `src/unnamed/part_000`.  The guard
`if (!user.gooUrl)` runs before the `try` block but is a pure field test and
cannot throw; everything else is inside the `try`, whose `catch` only logs
and returns normally. -/
def pollUserRun (f : FetchOutcome) (orc : OracleOutcome) (nowMs : Int) (nowIso : String)
    (u : User) : CycleResult User :=
  match u.gooUrl with
  | none => .done u false
  | some _ =>
    match pollBody f orc nowMs nowIso u with
    | .ok (u', c) => .done u' c
    | .error (u', c) => .done u' c

/-- The state and oracle-invocation flag produced by one `pollUser` cycle. -/
def pollUser (f : FetchOutcome) (orc : OracleOutcome) (nowMs : Int) (nowIso : String)
    (u : User) : User × Bool :=
  match pollUserRun f orc nowMs nowIso u with
  | .done u' c => (u', c)
  | .escaped u' => (u', false)

/-- `stopPollingForUser` of `src/unnamed/part_000`. -/
def stopPollingForUser (u : User) : User := { u with timerId := none, polling := false }

/-- `startPollingForUser` of `src/unnamed/part_000`: a no-op when already
polling with a live timer; otherwise starts a timer at `pollIntervalMs`
(defaulting to 5000 when that is 0, i.e. falsy). -/
def startPollingForUser (u : User) : User :=
  if u.polling && u.timerId.isSome then u
  else
    let interval := if u.pollIntervalMs = 0 then 5000 else u.pollIntervalMs
    { u with polling := true, timerId := some interval }

/-- The request body of `PATCH /api/users/:userId`; `none` stands for an
absent (or falsy) field, and `pollIntervalMs` carries the raw number so the
route's `> 0` test can be modelled. -/
structure PatchBody where
  gooUserId : Option String
  gooUrl : Option String
  openaiApiKey : Option String
  pollIntervalMs : Option Int
deriving DecidableEq, Repr

/-- The `PATCH /api/users/:userId` handler of `src/unnamed/part_000` applied
to an existing user: updates Goo coordinates and key when present, and on a
positive `pollIntervalMs` stores it and, if polling, stops and restarts the
timer. -/
def patchUser (b : PatchBody) (u : User) : User :=
  let u1 : User :=
    if b.gooUserId.isSome || b.gooUrl.isSome then
      let gid := b.gooUserId.getD (u.gooUserId.getD "")
      let gid' : Option String := if b.gooUserId.isSome then b.gooUserId else u.gooUserId
      match b.gooUrl with
      | some url => { u with gooUserId := gid', gooUrl := some url }
      | none => { u with gooUserId := gid', gooUrl := some ("https://11q.co/api/last/" ++ gid) }
    else u
  let u2 : User :=
    match b.openaiApiKey with
    | some k => { u1 with openaiApiKey := k }
    | none => u1
  match b.pollIntervalMs with
  | some v =>
    if 0 < v then
      let u3 : User := { u2 with pollIntervalMs := v.toNat }
      if u3.polling then startPollingForUser (stopPollingForUser u3) else u3
    else u2
  | none => u2

/-- `publicUser` of `src/unnamed/part_000`: the sanitized view returned by
every route, with no `openaiApiKey` field. -/
structure PublicUser where
  userId : String
  gooUserId : Option String
  gooUrl : Option String
  pollIntervalMs : Nat
  polling : Bool
  lastQuery : Option String
  lastProcessedQuery : Option String
  formattedDate : Option String
  daysLived : Option Int
  lastUpdated : Option String
deriving DecidableEq, Repr

/-- `publicUser` of `src/unnamed/part_000`. -/
def publicUser (u : User) : PublicUser :=
  { userId := u.userId
    gooUserId := u.gooUserId
    gooUrl := u.gooUrl
    pollIntervalMs := u.pollIntervalMs
    polling := u.polling
    lastQuery := u.lastQuery
    lastProcessedQuery := u.lastProcessedQuery
    formattedDate := u.formattedDate
    daysLived := u.daysLived
    lastUpdated := u.lastUpdated }

end Part000

namespace ServerJs

/-- The user record of the JavaScript half of `src/server.js` (and of
`src/unnamed/part_005`, which declares the identical shape). -/
structure User where
  id : String
  openaiKey : String
  locale : String
  pollIntervalMs : Nat
  polling : Bool
  timerId : Option Nat
  query : Option String
  date : Option String
  daysLived : Option Int
  weekday : Option String
  lastUpdated : Option String
deriving DecidableEq, Repr

/-- The fixed `-08:00` offset of `birthInLA` (`dateStr + 'T00:00:00-08:00'`),
in milliseconds. -/
def LA_OFFSET_MS : Int := 28800000

/-- `birthInLA` of `src/server.js`: the instant of the date's midnight at the
fixed `-08:00` offset, or `none` when the date string is invalid. -/
def birthInLA (dateStr : String) : Option Int :=
  (JsDate.parseIsoDate dateStr).map fun (y, m, d) =>
    JsDate.utcMidnightMs y m d + LA_OFFSET_MS

/-- `calculateDaysLived` of `src/server.js`: `Math.floor` of the milliseconds
from the birth instant to the reference instant (`nowInLA()`, an explicit
argument here) over one day.  No `- 1`, no further guard. -/
def calculateDaysLived (dateStr : String) (nowMs : Int) : Option Int :=
  (birthInLA dateStr).map fun b => Int.fdiv (nowMs - b) JsDate.MS_PER_DAY

/-- `calculateWeekday` of `src/server.js`: the `getDay` name of the birth
instant.  The `-08:00` midnight instant falls on the same civil date at any
offset in `(-16h, +8h]`, so the name is the date's own weekday. -/
def calculateWeekday (dateStr : String) : Option String :=
  (JsDate.parseIsoDate dateStr).map fun (y, m, d) =>
    JsDate.getDayNames.getD (JsDate.getDayIndex y m d) ""

/-- `extractDateWithOpenAI` of `src/server.js`: early `null` on a missing
key (no oracle call), otherwise the oracle outcome parsed by
`parseContentSJ`; internally caught, so it never throws. -/
def extractDateWithOpenAI (key : String) (orc : OracleOutcome) : Option String × Bool :=
  if key = "" then (none, false)
  else
    match orc with
    | .content s => ((OracleParse.parseContentSJ s).toOption, true)
    | _ => (none, true)

/-- The body of `pollUser`'s `try` block in `src/server.js`: gate on the
single `query` field, store the new query, extract, and commit all four
derived fields with no check on the computed day count. -/
def pollBody (f : FetchOutcome) (orc : OracleOutcome) (nowMs : Int) (nowIso : String)
    (u : User) : Except (User × Bool) (User × Bool) :=
  match f with
  | .reject => .error (u, false)
  | .notOk => .ok (u, false)
  | .notOkTextThrow => .error (u, false)
  | .badJson => .error (u, false)
  | .noQuery => .ok (u, false)
  | .query t =>
    if u.query = some t then .ok (u, false)
    else
      let u1 : User := { u with query := some t }
      match extractDateWithOpenAI u.openaiKey orc with
      | (none, called) => .ok (u1, called)
      | (some dstr, called) =>
        .ok ({ u1 with
                date := some dstr
                daysLived := calculateDaysLived dstr nowMs
                weekday := calculateWeekday dstr
                lastUpdated := some nowIso }, called)

/-- One invocation of `pollUser` in `src/server.js`: `buildGooURL` runs
before the `try` but is pure string building; everything that can throw is
inside the `try`, whose `catch` only logs. -/
def pollUserRun (f : FetchOutcome) (orc : OracleOutcome) (nowMs : Int) (nowIso : String)
    (u : User) : CycleResult User :=
  match pollBody f orc nowMs nowIso u with
  | .ok (u', c) => .done u' c
  | .error (u', c) => .done u' c

/-- The state and oracle-invocation flag produced by one `pollUser` cycle of
`src/server.js`. -/
def pollUser (f : FetchOutcome) (orc : OracleOutcome) (nowMs : Int) (nowIso : String)
    (u : User) : User × Bool :=
  match pollUserRun f orc nowMs nowIso u with
  | .done u' c => (u', c)
  | .escaped u' => (u', false)

/-- `publicUser` of `src/server.js`: the sanitized view, with no `openaiKey`
field. -/
structure PublicUser where
  id : String
  locale : String
  query : Option String
  date : Option String
  daysLived : Option Int
  weekday : Option String
  lastUpdated : Option String
deriving DecidableEq, Repr

/-- `publicUser` of `src/server.js`. -/
def publicUser (u : User) : PublicUser :=
  { id := u.id
    locale := u.locale
    query := u.query
    date := u.date
    daysLived := u.daysLived
    weekday := u.weekday
    lastUpdated := u.lastUpdated }

/-- The `GET /:id/stats` handler of `src/server.js` applied to the result of
the user lookup: always HTTP 200 with a two-string body; `"0"` when
`daysLived` is nullish and `""` when `weekday` is falsy.  The handler is a
total function of the lookup result — nothing in it can throw. -/
def statsRoute (lookup : Option User) : Nat × String × String :=
  (200,
   match lookup with
   | some u => (match u.daysLived with | some n => toString n | none => "0")
   | none => "0",
   match lookup with
   | some u => (match u.weekday with | some w => (if w = "" then "" else w) | none => "")
   | none => "")

end ServerJs

namespace Part005

/-- `calculateDaysLived` of `src/unnamed/part_005`: birth from
`new Date(dateStr)` — the UTC midnight of the date for ISO date-only strings
— then `Math.floor(diffMs / MS_PER_DAY) - 1`. -/
def calculateDaysLived (dateStr : String) (nowMs : Int) : Option Int :=
  (JsDate.parseIsoDate dateStr).map fun (y, m, d) =>
    Int.fdiv (nowMs - JsDate.utcMidnightMs y m d) JsDate.MS_PER_DAY - 1

/-- `calculateWeekday` of `src/unnamed/part_005`: the `getDay` name of
`new Date(dateStr + "T12:00:00")`; local noon falls on the same civil date at
any offset within twelve hours, so the name is the date's own weekday. -/
def calculateWeekday (dateStr : String) : Option String :=
  (JsDate.parseIsoDate dateStr).map fun (y, m, d) =>
    JsDate.getDayNames.getD (JsDate.getDayIndex y m d) ""

/-- `extractDateWithOpenAI` of `src/unnamed/part_005` (fence-stripping
response validation); never throws. -/
def extractDateWithOpenAI (key : String) (orc : OracleOutcome) : Option String × Bool :=
  if key = "" then (none, false)
  else
    match orc with
    | .content s => ((OracleParse.parseContent05 s).toOption, true)
    | _ => (none, true)

/-- The body of `pollUser`'s `try` block in `src/unnamed/part_005`: gate on
the single `query` field, store the new query, extract, and commit all four
derived fields only when the day count was computed successfully. -/
def pollBody (f : FetchOutcome) (orc : OracleOutcome) (nowMs : Int) (nowIso : String)
    (u : ServerJs.User) : Except (ServerJs.User × Bool) (ServerJs.User × Bool) :=
  match f with
  | .reject => .error (u, false)
  | .notOk => .ok (u, false)
  | .notOkTextThrow => .error (u, false)
  | .badJson => .error (u, false)
  | .noQuery => .ok (u, false)
  | .query t =>
    if u.query = some t then .ok (u, false)
    else
      let u1 : ServerJs.User := { u with query := some t }
      match extractDateWithOpenAI u.openaiKey orc with
      | (none, called) => .ok (u1, called)
      | (some dstr, called) =>
        match calculateDaysLived dstr nowMs with
        | none => .ok (u1, called)
        | some days =>
          .ok ({ u1 with
                  date := some dstr
                  daysLived := some days
                  weekday := calculateWeekday dstr
                  lastUpdated := some nowIso }, called)

/-- One invocation of `pollUser` in `src/unnamed/part_005`. -/
def pollUserRun (f : FetchOutcome) (orc : OracleOutcome) (nowMs : Int) (nowIso : String)
    (u : ServerJs.User) : CycleResult ServerJs.User :=
  match pollBody f orc nowMs nowIso u with
  | .ok (u', c) => .done u' c
  | .error (u', c) => .done u' c

/-- The state and oracle-invocation flag produced by one `pollUser` cycle of
`src/unnamed/part_005`. -/
def pollUser (f : FetchOutcome) (orc : OracleOutcome) (nowMs : Int) (nowIso : String)
    (u : ServerJs.User) : ServerJs.User × Bool :=
  match pollUserRun f orc nowMs nowIso u with
  | .done u' c => (u', c)
  | .escaped u' => (u', false)

/-- The `GET /:id/stats` handler of `src/unnamed/part_005` applied to the
lookup result: wrapped in `try`/`catch` with a `200 {"0",""}` fallback,
always HTTP 200 with a two-string body; `daysLived` is rendered when it is a
finite number and `weekday` when it is a string. -/
def statsRoute (lookup : Option ServerJs.User) : Nat × String × String :=
  (200,
   match lookup with
   | some u => (match u.daysLived with | some n => toString n | none => "0")
   | none => "0",
   match lookup with
   | some u => (match u.weekday with | some w => w | none => "")
   | none => "")

end Part005

namespace Part002

/-- The module-level `CONFIG` record of `src/unnamed/part_002`.  `last_value`
is the raw Goo JSON, kept abstract as a string; `autopollHandle` abstracts
the timer handle. -/
structure Config where
  gooKey : Option String
  gooUserId : Option String
  openAIKey : Option String
  last_value : Option String
  formatted_date : Option String
  days_lived : Option Int
  autopoll : Bool
  intervalMs : Nat
  autopollHandle : Option Nat
deriving DecidableEq, Repr

/-- The `GET /status` handler of `src/unnamed/part_002`: `res.json(CONFIG)`,
the whole configuration record — including `openAIKey` — serialized back to
the caller. -/
def statusRoute (c : Config) : Config := c

end Part002

/-! ### Weekday agreement between the Python variant and the Gregorian rule -/

theorem is_leap_iff (y : Nat) :
    PyVariant.is_leap y = true ↔ (y % 4 = 0 ∧ (y % 100 ≠ 0 ∨ y % 400 = 0)) := by
  simp [PyVariant.is_leap]

/-- The year loop of `days_since_epoch` agrees, modulo 7, with the
`(y-1)`-based leap-count expression of the Gregorian day-of-week congruence
(both anchored at Thursday, 1970-01-01). -/
theorem yearDays_anchor (y : Nat) (hy : 1970 ≤ y) :
    (PyVariant.yearDays y + 4) % 7
      = (y - 1 + (y - 1) / 4 - (y - 1) / 100 + (y - 1) / 400 + 1) % 7 := by
  induction y, hy using Nat.le_induction with
  | base => decide
  | succ y hy ih =>
    have hstep : PyVariant.yearDays (y + 1)
        = PyVariant.yearDays y + (365 + (if PyVariant.is_leap y then (1 : Nat) else 0)) := by
      simp only [PyVariant.yearDays]
      rw [if_neg (by omega)]
      cases hb : PyVariant.is_leap y <;> simp [hb]
    rw [hstep, Nat.add_sub_cancel]
    generalize PyVariant.yearDays y = A at ih ⊢
    cases hb : PyVariant.is_leap y with
    | false =>
      have hnl : ¬(y % 4 = 0 ∧ (y % 100 ≠ 0 ∨ y % 400 = 0)) := by
        rw [← is_leap_iff, hb]; simp
      simp only [Bool.false_eq_true, if_false]
      by_cases h4 : y % 4 = 0
      · by_cases h400 : y % 400 = 0
        · exact absurd ⟨h4, Or.inr h400⟩ hnl
        · by_cases h100 : y % 100 = 0
          · have e4 : y / 4 = (y - 1) / 4 + 1 := by omega
            have e100 : y / 100 = (y - 1) / 100 + 1 := by omega
            have e400 : y / 400 = (y - 1) / 400 := by omega
            omega
          · exact absurd ⟨h4, Or.inl h100⟩ hnl
      · have e4 : y / 4 = (y - 1) / 4 := by omega
        have e100 : y / 100 = (y - 1) / 100 := by omega
        have e400 : y / 400 = (y - 1) / 400 := by omega
        omega
    | true =>
      obtain ⟨h4, hor⟩ := (is_leap_iff y).mp hb
      simp only [if_true]
      have e4 : y / 4 = (y - 1) / 4 + 1 := by omega
      rcases hor with h100 | h400
      · have e100 : y / 100 = (y - 1) / 100 := by omega
        have e400 : y / 400 = (y - 1) / 400 := by omega
        omega
      · have e100 : y / 100 = (y - 1) / 100 + 1 := by omega
        have e400 : y / 400 = (y - 1) / 400 + 1 := by omega
        omega

set_option maxHeartbeats 1600000 in
/-- `days_since_epoch`, shifted to Sunday-first indexing, agrees modulo 7
with the Gregorian day-of-week congruence for every date from 1970 on. -/
theorem dse_idx_eq (y m d : Nat) (hy : 1970 ≤ y) (hm1 : 1 ≤ m) (hm2 : m ≤ 12)
    (hd : 1 ≤ d) :
    (PyVariant.days_since_epoch y m d + 4) % 7 = GregSpec.specWeekdayIndex y m d := by
  have hA := yearDays_anchor y hy
  unfold PyVariant.days_since_epoch GregSpec.specWeekdayIndex
  generalize PyVariant.yearDays y = A at hA ⊢
  cases hb : PyVariant.is_leap y with
  | false =>
    have hnl : ¬(y % 4 = 0 ∧ (y % 100 ≠ 0 ∨ y % 400 = 0)) := by
      rw [← is_leap_iff, hb]; simp
    by_cases h4 : y % 4 = 0
    · by_cases h400 : y % 400 = 0
      · exact absurd ⟨h4, Or.inr h400⟩ hnl
      · by_cases h100 : y % 100 = 0
        · have e4 : y / 4 = (y - 1) / 4 + 1 := by omega
          have e100 : y / 100 = (y - 1) / 100 + 1 := by omega
          have e400 : y / 400 = (y - 1) / 400 := by omega
          interval_cases m <;>
            simp [PyVariant.monthDays, PyVariant.days_in_month, GregSpec.sakamotoTable,
              List.getD, hb] <;>
            omega
        · exact absurd ⟨h4, Or.inl h100⟩ hnl
    · have e4 : y / 4 = (y - 1) / 4 := by omega
      have e100 : y / 100 = (y - 1) / 100 := by omega
      have e400 : y / 400 = (y - 1) / 400 := by omega
      interval_cases m <;>
        simp [PyVariant.monthDays, PyVariant.days_in_month, GregSpec.sakamotoTable,
          List.getD, hb] <;>
        omega
  | true =>
    obtain ⟨h4, hor⟩ := (is_leap_iff y).mp hb
    have e4 : y / 4 = (y - 1) / 4 + 1 := by omega
    rcases hor with h100 | h400
    · have e100 : y / 100 = (y - 1) / 100 := by omega
      have e400 : y / 400 = (y - 1) / 400 := by omega
      interval_cases m <;>
        simp [PyVariant.monthDays, PyVariant.days_in_month, GregSpec.sakamotoTable,
          List.getD, hb] <;>
        omega
    · have e100 : y / 100 = (y - 1) / 100 + 1 := by omega
      have e400 : y / 400 = (y - 1) / 400 + 1 := by omega
      interval_cases m <;>
        simp [PyVariant.monthDays, PyVariant.days_in_month, GregSpec.sakamotoTable,
          List.getD, hb] <;>
        omega

/-- The Thursday-first table of the Python variant, read at `j`, names the
same day as the Sunday-first table read at `(j + 4) % 7`. -/
theorem names_align (j : Nat) (hj : j < 7) :
    PyVariant.weekday_names.getD j "" = GregSpec.specNames.getD ((j + 4) % 7) "" := by
  interval_cases j <;> decide

/-! ### Claim C7 -/

/-- C7 counterexample: `calculate_weekday` is not the proleptic Gregorian
day-of-week for every calendar date — the Python variant's year loop runs
from 1970, so 1969-12-31 (a Wednesday in the proleptic Gregorian calendar)
is reported as `"Thursday"`. -/
theorem c7_counterexample :
    PyVariant.calculate_weekday 1969 12 31 = "Thursday" ∧
    GregSpec.specGregorianWeekday 1969 12 31 = "Wednesday" ∧
    PyVariant.calculate_weekday 1969 12 31 ≠ GregSpec.specGregorianWeekday 1969 12 31 := by
  decide

/-- C7 (amended): for every calendar date from 1970 onward, the Python
variant's `calculate_weekday` is the proleptic Gregorian day-of-week name
(leap years exactly those divisible by 4 except centuries not divisible by
400), independent of time-of-day and timezone (it reads only the date); in
particular `weekday("2008-03-06") = "Thursday"`.  Before 1970 the year loop
contributes nothing and the result is wrong, as the counterexample shows. -/
theorem c7_amended_weekday_gregorian :
    (∀ y m d : Nat, 1970 ≤ y → 1 ≤ m → m ≤ 12 → 1 ≤ d → d ≤ PyVariant.days_in_month y m →
      PyVariant.calculate_weekday y m d = GregSpec.specGregorianWeekday y m d) ∧
    PyVariant.calculate_weekday 2008 3 6 = "Thursday" ∧
    GregSpec.specGregorianWeekday 2008 3 6 = "Thursday" := by
  refine ⟨?_, by decide, by decide⟩
  intro y m d hy hm1 hm2 hd _
  unfold PyVariant.calculate_weekday GregSpec.specGregorianWeekday
  rw [← dse_idx_eq y m d hy hm1 hm2 hd]
  have h2 : (PyVariant.days_since_epoch y m d + 4) % 7
      = (PyVariant.days_since_epoch y m d % 7 + 4) % 7 := by omega
  rw [h2]
  exact names_align _ (Nat.mod_lt _ (by omega))

/-- C7 witness: the amended theorem applied at 1972-02-29 (a leap day) and
at 2008-03-06. -/
theorem c7_amended_weekday_gregorian_witness :
    PyVariant.calculate_weekday 1972 2 29 = GregSpec.specGregorianWeekday 1972 2 29 ∧
    PyVariant.calculate_weekday 2008 3 6 = GregSpec.specGregorianWeekday 2008 3 6 :=
  ⟨c7_amended_weekday_gregorian.1 1972 2 29 (by decide) (by decide) (by decide) (by decide)
      (by decide),
   c7_amended_weekday_gregorian.1 2008 3 6 (by decide) (by decide) (by decide) (by decide)
      (by decide)⟩

/-! ### Claim C4 -/

/-- C4: for every lookup result of the stats endpoint — including a missing
user and a user that never completed a successful cycle — both the
`src/server.js` and the `src/unnamed/part_005` `GET /:id/stats` handlers
return status 200 with a well-formed two-string body; the day count is `"0"`
and the weekday `""` whenever no value is available, and a stored day count
is rendered as its decimal string.  The handlers are total functions of the
lookup result, so no input makes them throw or produce an error response. -/
theorem c4_stats_never_fails :
    ∀ lookup : Option ServerJs.User,
      (ServerJs.statsRoute lookup).1 = 200 ∧
      (Part005.statsRoute lookup).1 = 200 ∧
      (lookup = none →
        ServerJs.statsRoute lookup = (200, "0", "") ∧
        Part005.statsRoute lookup = (200, "0", "")) ∧
      (∀ u, lookup = some u → u.daysLived = none →
        (ServerJs.statsRoute lookup).2.1 = "0" ∧ (Part005.statsRoute lookup).2.1 = "0") ∧
      (∀ u, lookup = some u → u.weekday = none →
        (ServerJs.statsRoute lookup).2.2 = "" ∧ (Part005.statsRoute lookup).2.2 = "") ∧
      (∀ u n, lookup = some u → u.daysLived = some n →
        (ServerJs.statsRoute lookup).2.1 = toString n ∧
        (Part005.statsRoute lookup).2.1 = toString n) := by
  intro lookup
  cases lookup with
  | none => simp [ServerJs.statsRoute, Part005.statsRoute]
  | some u =>
    refine ⟨rfl, rfl, by simp, ?_, ?_, ?_⟩
    · intro v hv hdl
      cases hv
      simp [ServerJs.statsRoute, Part005.statsRoute, hdl]
    · intro v hv hw
      cases hv
      simp [ServerJs.statsRoute, Part005.statsRoute, hw]
    · intro v n hv hdl
      cases hv
      simp [ServerJs.statsRoute, Part005.statsRoute, hdl]

/-- C4 witness: the theorem applied to a missing user and to an uninitialized
user (all derived fields still null). -/
theorem c4_stats_never_fails_witness :
    (ServerJs.statsRoute none = (200, "0", "") ∧ Part005.statsRoute none = (200, "0", "")) ∧
    (ServerJs.statsRoute
        (some ⟨"158", "sk", "US", 2000, false, none, none, none, none, none, none⟩)).2.1
      = "0" :=
  ⟨(c4_stats_never_fails none).2.2.1 rfl,
   ((c4_stats_never_fails
        (some ⟨"158", "sk", "US", 2000, false, none, none, none, none, none, none⟩)).2.2.2.1
      _ rfl rfl).1⟩

/-! ### Claim C8 -/

/-- C8 counterexample: the `GET /status` route of `src/unnamed/part_002`
serializes the whole `CONFIG` record, so two states that differ only in the
stored OpenAI key produce different read responses, and the response carries
the key itself — the credential is not write-only from external reads. -/
theorem c8_counterexample :
    (Part002.statusRoute
        ⟨some "gk", some "158", some "sk-alpha", none, none, none, false, 5000, none⟩).openAIKey
      = some "sk-alpha" ∧
    Part002.statusRoute
        ⟨some "gk", some "158", some "sk-alpha", none, none, none, false, 5000, none⟩
      ≠ Part002.statusRoute
        ⟨some "gk", some "158", some "sk-beta", none, none, none, false, 5000, none⟩ := by
  decide

/-- C8 (amended): in the multi-user variants every read path is
credential-blind — `publicUser` of `src/server.js` and of
`src/unnamed/part_000`, and the stats endpoint, return identical output for
any two states differing only in the stored OpenAI key, which they never
include; but the `GET /status` route of `src/unnamed/part_002` (likewise
part_003/part_004) returns the stored key itself. -/
theorem c8_amended_credential_masking :
    (∀ (u : ServerJs.User) (k : String),
      ServerJs.publicUser { u with openaiKey := k } = ServerJs.publicUser u) ∧
    (∀ (u : Part000.User) (k : String),
      Part000.publicUser { u with openaiApiKey := k } = Part000.publicUser u) ∧
    (∀ (u : ServerJs.User) (k : String),
      ServerJs.statsRoute (some { u with openaiKey := k }) = ServerJs.statsRoute (some u)) ∧
    (∀ (c : Part002.Config) (k : Option String),
      (Part002.statusRoute { c with openAIKey := k }).openAIKey = k) := by
  refine ⟨?_, ?_, ?_, ?_⟩
  · intro u k; rfl
  · intro u k; rfl
  · intro u k; rfl
  · intro c k; rfl

/-! ### Claim C9 -/

/-- C9: a `PATCH /api/users/:userId` request carrying only a positive
`pollIntervalMs`, applied to a user whose polling is active, stores the new
interval, restarts the timer at that interval, and leaves every other field
— Goo coordinates, the OpenAI key, both query fields, the derived results,
the timestamp and the polling flag — unchanged. -/
theorem c9_interval_update_restart :
    ∀ (u u' : Part000.User) (v : Int), 0 < v → u.polling = true →
      u' = Part000.patchUser ⟨none, none, none, some v⟩ u →
      u'.pollIntervalMs = v.toNat ∧ u'.timerId = some v.toNat ∧ u'.polling = true ∧
      u'.userId = u.userId ∧ u'.gooUserId = u.gooUserId ∧ u'.gooUrl = u.gooUrl ∧
      u'.openaiApiKey = u.openaiApiKey ∧ u'.lastQuery = u.lastQuery ∧
      u'.lastProcessedQuery = u.lastProcessedQuery ∧ u'.formattedDate = u.formattedDate ∧
      u'.daysLived = u.daysLived ∧ u'.lastUpdated = u.lastUpdated := by
  intro u u' v hv hpoll hu'
  have hvnat : v.toNat ≠ 0 := by omega
  subst hu'
  simp [Part000.patchUser, Part000.startPollingForUser, Part000.stopPollingForUser,
    hv, hpoll, hvnat]

/-- C9 witness: the theorem applied to a concrete polling user and interval
3000. -/
theorem c9_interval_update_restart_witness :
    (Part000.patchUser ⟨none, none, none, some 3000⟩
        ⟨"1", some "158", some "https://11q.co/api/last/158", "sk", 5000, true, some 5000,
          some "q", some "q", some "2008-03-06", some 6490, some "t"⟩).pollIntervalMs
      = (3000 : Int).toNat :=
  (c9_interval_update_restart
    ⟨"1", some "158", some "https://11q.co/api/last/158", "sk", 5000, true, some 5000,
      some "q", some "q", some "2008-03-06", some 6490, some "t"⟩
    _ 3000 (by decide) rfl rfl).1

/-! ### Claim C10 -/

/-- C10: one invocation of `pollUser` terminates normally for every external
behaviour — rejected fetch, non-success status (even when reading the error
body itself throws), malformed JSON, missing or non-string `query` field,
any oracle behaviour, and any extracted date (including one on which the day
count cannot be computed).  In both `src/server.js` and
`src/unnamed/part_000` every throwing operation sits inside the cycle's
`try` block, whose `catch` only logs, so no exception escapes to the
`setInterval` tick. -/
theorem c10_poll_never_throws :
    ∀ (f : FetchOutcome) (orc : OracleOutcome) (nowMs : Int) (nowIso : String)
      (uA : Part000.User) (uS : ServerJs.User),
      (Part000.pollUserRun f orc nowMs nowIso uA).isEscaped = false ∧
      (ServerJs.pollUserRun f orc nowMs nowIso uS).isEscaped = false := by
  intro f orc nowMs nowIso uA uS
  constructor
  · unfold Part000.pollUserRun
    cases hg : uA.gooUrl with
    | none => rfl
    | some g =>
      cases hb : Part000.pollBody f orc nowMs nowIso uA with
      | ok r => rfl
      | error r => rfl
  · unfold ServerJs.pollUserRun
    cases hb : ServerJs.pollBody f orc nowMs nowIso uS with
    | ok r => rfl
    | error r => rfl

/-! ### Rewriting lemmas for the poll cycles -/

theorem pollA_noUrl_eq (f : FetchOutcome) (orc : OracleOutcome) (nowMs : Int) (iso : String)
    (u : Part000.User) (hg : u.gooUrl = none) :
    Part000.pollUser f orc nowMs iso u = (u, false) := by
  unfold Part000.pollUser Part000.pollUserRun
  rw [hg]

theorem pollA_other_eq (f : FetchOutcome) (orc : OracleOutcome) (nowMs : Int) (iso : String)
    (u : Part000.User) (hf : ∀ t, f ≠ .query t) :
    Part000.pollUser f orc nowMs iso u = (u, false) := by
  cases f with
  | query t => exact absurd rfl (hf t)
  | reject | notOk | notOkTextThrow | badJson | noQuery =>
    unfold Part000.pollUser Part000.pollUserRun Part000.pollBody
    cases hg : u.gooUrl <;> rfl

theorem pollA_query_eq (t : String) (orc : OracleOutcome) (nowMs : Int) (iso : String)
    (u : Part000.User) (g : String) (hg : u.gooUrl = some g) :
    Part000.pollUser (.query t) orc nowMs iso u =
      if some t = u.lastProcessedQuery then ({ u with lastQuery := some t }, false)
      else
        match Part000.extractDateWithOpenAI u.openaiApiKey orc with
        | (none, called) => ({ u with lastQuery := some t }, called)
        | (some dstr, called) =>
          match Part000.calculateDaysLived dstr nowMs with
          | none => ({ u with lastQuery := some t }, called)
          | some days =>
            ({ u with
                lastQuery := some t, formattedDate := some dstr,
                daysLived := some days, lastProcessedQuery := some t,
                lastUpdated := some iso }, called) := by
  by_cases hgate : some t = u.lastProcessedQuery
  · simp [Part000.pollUser, Part000.pollUserRun, Part000.pollBody, hg, hgate]
  · rcases hx : Part000.extractDateWithOpenAI u.openaiApiKey orc with ⟨r, called⟩
    cases r with
    | none => simp [Part000.pollUser, Part000.pollUserRun, Part000.pollBody, hg, hgate, hx]
    | some dstr =>
      cases hc : Part000.calculateDaysLived dstr nowMs with
      | none =>
        simp [Part000.pollUser, Part000.pollUserRun, Part000.pollBody, hg, hgate, hx, hc]
      | some days =>
        simp [Part000.pollUser, Part000.pollUserRun, Part000.pollBody, hg, hgate, hx, hc]

theorem pollSJ_other_eq (f : FetchOutcome) (orc : OracleOutcome) (nowMs : Int) (iso : String)
    (u : ServerJs.User) (hf : ∀ t, f ≠ .query t) :
    ServerJs.pollUser f orc nowMs iso u = (u, false) := by
  cases f with
  | query t => exact absurd rfl (hf t)
  | reject | notOk | notOkTextThrow | badJson | noQuery => rfl

theorem pollSJ_query_eq (t : String) (orc : OracleOutcome) (nowMs : Int) (iso : String)
    (u : ServerJs.User) :
    ServerJs.pollUser (.query t) orc nowMs iso u =
      if u.query = some t then (u, false)
      else
        match ServerJs.extractDateWithOpenAI u.openaiKey orc with
        | (none, called) => ({ u with query := some t }, called)
        | (some dstr, called) =>
          ({ u with
              query := some t, date := some dstr,
              daysLived := ServerJs.calculateDaysLived dstr nowMs,
              weekday := ServerJs.calculateWeekday dstr,
              lastUpdated := some iso }, called) := by
  by_cases hgate : u.query = some t
  · simp [ServerJs.pollUser, ServerJs.pollUserRun, ServerJs.pollBody, hgate]
  · rcases hx : ServerJs.extractDateWithOpenAI u.openaiKey orc with ⟨r, called⟩
    cases r with
    | none => simp [ServerJs.pollUser, ServerJs.pollUserRun, ServerJs.pollBody, hgate, hx]
    | some dstr => simp [ServerJs.pollUser, ServerJs.pollUserRun, ServerJs.pollBody, hgate, hx]

theorem poll05_other_eq (f : FetchOutcome) (orc : OracleOutcome) (nowMs : Int) (iso : String)
    (u : ServerJs.User) (hf : ∀ t, f ≠ .query t) :
    Part005.pollUser f orc nowMs iso u = (u, false) := by
  cases f with
  | query t => exact absurd rfl (hf t)
  | reject | notOk | notOkTextThrow | badJson | noQuery => rfl

theorem poll05_query_eq (t : String) (orc : OracleOutcome) (nowMs : Int) (iso : String)
    (u : ServerJs.User) :
    Part005.pollUser (.query t) orc nowMs iso u =
      if u.query = some t then (u, false)
      else
        match Part005.extractDateWithOpenAI u.openaiKey orc with
        | (none, called) => ({ u with query := some t }, called)
        | (some dstr, called) =>
          match Part005.calculateDaysLived dstr nowMs with
          | none => ({ u with query := some t }, called)
          | some days =>
            ({ u with
                query := some t, date := some dstr, daysLived := some days,
                weekday := Part005.calculateWeekday dstr,
                lastUpdated := some iso }, called) := by
  by_cases hgate : u.query = some t
  · simp [Part005.pollUser, Part005.pollUserRun, Part005.pollBody, hgate]
  · rcases hx : Part005.extractDateWithOpenAI u.openaiKey orc with ⟨r, called⟩
    cases r with
    | none => simp [Part005.pollUser, Part005.pollUserRun, Part005.pollBody, hgate, hx]
    | some dstr =>
      cases hc : Part005.calculateDaysLived dstr nowMs with
      | none => simp [Part005.pollUser, Part005.pollUserRun, Part005.pollBody, hgate, hx, hc]
      | some days =>
        simp [Part005.pollUser, Part005.pollUserRun, Part005.pollBody, hgate, hx, hc]

theorem extractA_called (key : String) (orc : OracleOutcome) (hk : key ≠ "") :
    (Part000.extractDateWithOpenAI key orc).2 = true := by
  unfold Part000.extractDateWithOpenAI
  rw [if_neg hk]
  cases orc <;> rfl

theorem extractSJ_called (key : String) (orc : OracleOutcome) (hk : key ≠ "") :
    (ServerJs.extractDateWithOpenAI key orc).2 = true := by
  unfold ServerJs.extractDateWithOpenAI
  rw [if_neg hk]
  cases orc <;> rfl

theorem userA_set_lastQuery_self (u : Part000.User) (t : Option String)
    (h : u.lastQuery = t) : { u with lastQuery := t } = u := by
  cases u
  cases h
  rfl

theorem pollA_query_sets_lastQuery (t : String) (orc : OracleOutcome) (nowMs : Int)
    (iso : String) (u : Part000.User) (g : String) (hg : u.gooUrl = some g) :
    (Part000.pollUser (.query t) orc nowMs iso u).1.lastQuery = some t := by
  rw [pollA_query_eq t orc nowMs iso u g hg]
  by_cases hgate : some t = u.lastProcessedQuery
  · simp [hgate]
  · rw [if_neg hgate]
    rcases hx : Part000.extractDateWithOpenAI u.openaiApiKey orc with ⟨r, called⟩
    cases r with
    | none => rfl
    | some dstr =>
      dsimp only
      cases hc : Part000.calculateDaysLived dstr nowMs <;> rfl

theorem pollA_preserves_gooUrl (f : FetchOutcome) (orc : OracleOutcome) (nowMs : Int)
    (iso : String) (u : Part000.User) :
    (Part000.pollUser f orc nowMs iso u).1.gooUrl = u.gooUrl := by
  cases f with
  | query t =>
    cases hg : u.gooUrl with
    | none =>
      rw [pollA_noUrl_eq _ orc nowMs iso u hg]
      exact hg
    | some g =>
      rw [pollA_query_eq t orc nowMs iso u g hg]
      by_cases hgate : some t = u.lastProcessedQuery
      · rw [if_pos hgate]
        exact hg
      · rw [if_neg hgate]
        rcases hx : Part000.extractDateWithOpenAI u.openaiApiKey orc with ⟨r, called⟩
        cases r with
        | none => exact hg
        | some dstr =>
          dsimp only
          cases hc : Part000.calculateDaysLived dstr nowMs <;> exact hg
  | reject | notOk | notOkTextThrow | badJson | noQuery =>
    rw [pollA_other_eq _ orc nowMs iso u (by intro t h; cases h)]

theorem pollA_query_called (t : String) (orc : OracleOutcome) (nowMs : Int) (iso : String)
    (u : Part000.User) (g : String) (hg : u.gooUrl = some g)
    (hk : u.openaiApiKey ≠ "") (hgate : u.lastProcessedQuery ≠ some t) :
    (Part000.pollUser (.query t) orc nowMs iso u).2 = true := by
  rw [pollA_query_eq t orc nowMs iso u g hg, if_neg (fun h => hgate h.symm)]
  rcases hx : Part000.extractDateWithOpenAI u.openaiApiKey orc with ⟨r, called⟩
  have h2 : called = true := by
    have h3 := extractA_called u.openaiApiKey orc hk
    rw [hx] at h3
    exact h3
  subst h2
  cases r with
  | none => rfl
  | some dstr => cases hc : Part000.calculateDaysLived dstr nowMs <;> simp [hc]

theorem pollSJ_query_called (t : String) (orc : OracleOutcome) (nowMs : Int) (iso : String)
    (u : ServerJs.User) (hk : u.openaiKey ≠ "") (hgate : u.query ≠ some t) :
    (ServerJs.pollUser (.query t) orc nowMs iso u).2 = true := by
  rw [pollSJ_query_eq t orc nowMs iso u, if_neg hgate]
  rcases hx : ServerJs.extractDateWithOpenAI u.openaiKey orc with ⟨r, called⟩
  have h2 : called = true := by
    have h3 := extractSJ_called u.openaiKey orc hk
    rw [hx] at h3
    exact h3
  subst h2
  cases r <;> rfl

/-! ### Claim C1 -/

/-- C1 counterexample: in `src/server.js` the gate compares the single
`query` field, which is written before extraction.  A fresh user polls text
`"what day"`, the oracle call fails (`notOk`), nothing is committed (all
derived fields stay null, so no committed result exists for this text); a
later cycle fetching the very same text ends at the gate with no oracle call
(flag `false`), although the claim requires the oracle to be called again. -/
theorem c1_counterexample :
    ServerJs.pollUser (.query "what day") .notOk 0 "t1"
        ⟨"158", "sk-test", "US", 2000, true, some 2000, none, none, none, none, none⟩
      = (⟨"158", "sk-test", "US", 2000, true, some 2000, some "what day",
          none, none, none, none⟩, true) ∧
    (ServerJs.pollUser (.query "what day") (.content "2008-03-06") 0 "t2"
        ⟨"158", "sk-test", "US", 2000, true, some 2000, some "what day",
          none, none, none, none⟩).2 = false := by
  decide

/-- C1 (amended): the claimed behaviour is exactly that of
`src/unnamed/part_000`: with a Goo URL and an OpenAI key configured, a cycle
fetching text `t` makes no oracle call precisely when `t` equals
`lastProcessedQuery` (the text of the last committed result); ending at the
gate mutates only `lastQuery`; and after a cycle whose extraction failed, a
later cycle fetching the same text does call the oracle again.  In
`src/server.js` (and `src/unnamed/part_005`) the gate instead compares the
single `query` field — the last observed text, updated before extraction —
so no oracle call happens precisely when `t` equals the last observed text,
and a failed extraction is not retried for the same text. -/
theorem c1_amended_change_gate :
    (∀ (u : Part000.User) (g t : String) (orc : OracleOutcome) (nowMs : Int) (iso : String),
      u.gooUrl = some g → u.openaiApiKey ≠ "" →
      (((Part000.pollUser (.query t) orc nowMs iso u).2 = false) ↔
        u.lastProcessedQuery = some t)) ∧
    (∀ (u : Part000.User) (g t : String) (orc : OracleOutcome) (nowMs : Int) (iso : String),
      u.gooUrl = some g → u.lastProcessedQuery = some t →
      Part000.pollUser (.query t) orc nowMs iso u = ({ u with lastQuery := some t }, false)) ∧
    (∀ (u : Part000.User) (g t : String) (orc1 orc2 : OracleOutcome) (n1 n2 : Int)
        (i1 i2 : String),
      u.gooUrl = some g → u.openaiApiKey ≠ "" → u.lastProcessedQuery ≠ some t →
      (Part000.extractDateWithOpenAI u.openaiApiKey orc1).1 = none →
      (Part000.pollUser (.query t) orc2 n2 i2
        (Part000.pollUser (.query t) orc1 n1 i1 u).1).2 = true) ∧
    (∀ (u : ServerJs.User) (t : String) (orc : OracleOutcome) (nowMs : Int) (iso : String),
      u.openaiKey ≠ "" →
      (((ServerJs.pollUser (.query t) orc nowMs iso u).2 = false) ↔ u.query = some t)) := by
  refine ⟨?_, ?_, ?_, ?_⟩
  · intro u g t orc nowMs iso hg hk
    constructor
    · intro hfalse
      by_contra hne
      have htrue := pollA_query_called t orc nowMs iso u g hg hk hne
      rw [hfalse] at htrue
      exact Bool.noConfusion htrue
    · intro hp
      rw [pollA_query_eq t orc nowMs iso u g hg, if_pos hp.symm]
  · intro u g t orc nowMs iso hg hp
    rw [pollA_query_eq t orc nowMs iso u g hg, if_pos hp.symm]
  · intro u g t orc1 orc2 n1 n2 i1 i2 hg hk hne hfail
    have h1 : Part000.pollUser (.query t) orc1 n1 i1 u
        = ({ u with lastQuery := some t }, (Part000.extractDateWithOpenAI u.openaiApiKey orc1).2) := by
      rw [pollA_query_eq t orc1 n1 i1 u g hg, if_neg (fun h => hne h.symm)]
      rcases hx : Part000.extractDateWithOpenAI u.openaiApiKey orc1 with ⟨r, called⟩
      have hr : r = none := by
        have h4 := hfail
        rw [hx] at h4
        exact h4
      subst hr
      rfl
    rw [h1]
    exact pollA_query_called t orc2 n2 i2 _ g hg hk hne
  · intro u t orc nowMs iso hk
    constructor
    · intro hfalse
      by_contra hne
      have htrue := pollSJ_query_called t orc nowMs iso u hk hne
      rw [hfalse] at htrue
      exact Bool.noConfusion htrue
    · intro hp
      rw [pollSJ_query_eq t orc nowMs iso u, if_pos hp]

/-- C1 witness: the amended theorem applied to concrete users — the gate
case of part_000, the retry-after-failure case of part_000, and the
server.js gate. -/
theorem c1_amended_change_gate_witness :
    ((Part000.pollUser (.query "q") .notOk 0 "t"
        ⟨"1", some "158", some "u", "sk", 5000, true, some 5000, none, some "q",
          none, none, none⟩).2 = false ↔
      (⟨"1", some "158", some "u", "sk", 5000, true, some 5000, none, some "q",
          none, none, none⟩ : Part000.User).lastProcessedQuery = some "q") ∧
    (Part000.pollUser (.query "new") (.content "2008-03-06") 0 "t2"
      (Part000.pollUser (.query "new") .notOk 0 "t1"
        ⟨"1", some "158", some "u", "sk", 5000, true, some 5000, none, some "q",
          none, none, none⟩).1).2 = true :=
  ⟨c1_amended_change_gate.1
      ⟨"1", some "158", some "u", "sk", 5000, true, some 5000, none, some "q",
        none, none, none⟩ "u" "q" .notOk 0 "t" rfl (by decide),
   c1_amended_change_gate.2.2.1
      ⟨"1", some "158", some "u", "sk", 5000, true, some 5000, none, some "q",
        none, none, none⟩ "u" "new" .notOk (.content "2008-03-06") 0 0 "t1" "t2"
      rfl (by decide) (by decide) (by decide)⟩

/-! ### Claim C2 -/

/-- C2 counterexample: in `src/server.js` a cycle whose extraction returned
the well-shaped but calendar-invalid string `"9999-99-99"` fails to compute a
day count (`calculateDaysLived` yields `null`), yet the commit still runs:
`date` and `lastUpdated` are written (with null `daysLived`/`weekday`), so a
failed step mutated fields beyond the last observed text. -/
theorem c2_counterexample :
    ServerJs.calculateDaysLived "9999-99-99" 0 = none ∧
    ServerJs.pollUser (.query "born 9999-99-99") (.content "9999-99-99") 0 "iso-now"
        ⟨"158", "sk", "US", 2000, true, some 2000, none, none, none, none, none⟩
      = (⟨"158", "sk", "US", 2000, true, some 2000, some "born 9999-99-99",
          some "9999-99-99", none, none, some "iso-now"⟩, true) := by
  decide

/-- C2 (amended): in `src/unnamed/part_005` and `src/unnamed/part_000` every
poll cycle either leaves all derived fields untouched (any failure — fetch,
extraction, or day-count computation — mutates at most the observed-text
field) or performs a full commit in which the extracted date, the day count,
the processed text / weekday and the timestamp are written together; the
configuration fields are never touched by a cycle.  In `src/server.js` the
same holds for fetch and extraction failures, but a cycle whose day-count
computation fails still commits, as the counterexample shows. -/
theorem c2_amended_atomic_commit :
    (∀ (f : FetchOutcome) (orc : OracleOutcome) (nowMs : Int) (iso : String)
        (u u' : ServerJs.User) (c : Bool),
      Part005.pollUser f orc nowMs iso u = (u', c) →
      (u'.id = u.id ∧ u'.openaiKey = u.openaiKey ∧ u'.locale = u.locale ∧
       u'.pollIntervalMs = u.pollIntervalMs ∧ u'.polling = u.polling ∧
       u'.timerId = u.timerId) ∧
      ((u'.date = u.date ∧ u'.daysLived = u.daysLived ∧ u'.weekday = u.weekday ∧
        u'.lastUpdated = u.lastUpdated) ∨
       (∃ t dstr n, f = .query t ∧
          (Part005.extractDateWithOpenAI u.openaiKey orc).1 = some dstr ∧
          Part005.calculateDaysLived dstr nowMs = some n ∧
          u' = { u with
                  query := some t, date := some dstr, daysLived := some n,
                  weekday := Part005.calculateWeekday dstr,
                  lastUpdated := some iso }))) ∧
    (∀ (f : FetchOutcome) (orc : OracleOutcome) (nowMs : Int) (iso : String)
        (u u' : Part000.User) (c : Bool),
      Part000.pollUser f orc nowMs iso u = (u', c) →
      (u'.userId = u.userId ∧ u'.gooUserId = u.gooUserId ∧ u'.gooUrl = u.gooUrl ∧
       u'.openaiApiKey = u.openaiApiKey ∧ u'.pollIntervalMs = u.pollIntervalMs ∧
       u'.polling = u.polling ∧ u'.timerId = u.timerId) ∧
      ((u'.formattedDate = u.formattedDate ∧ u'.daysLived = u.daysLived ∧
        u'.lastProcessedQuery = u.lastProcessedQuery ∧ u'.lastUpdated = u.lastUpdated) ∨
       (∃ t dstr n, f = .query t ∧
          (Part000.extractDateWithOpenAI u.openaiApiKey orc).1 = some dstr ∧
          Part000.calculateDaysLived dstr nowMs = some n ∧
          u' = { u with
                  lastQuery := some t, formattedDate := some dstr,
                  daysLived := some n, lastProcessedQuery := some t,
                  lastUpdated := some iso }))) := by
  constructor
  · intro f orc nowMs iso u u' c h
    cases f with
    | reject | notOk | notOkTextThrow | badJson | noQuery =>
      rw [poll05_other_eq _ orc nowMs iso u (by intro t ht; cases ht)] at h
      injection h with h1 h2
      subst h1
      exact ⟨⟨rfl, rfl, rfl, rfl, rfl, rfl⟩, Or.inl ⟨rfl, rfl, rfl, rfl⟩⟩
    | query t =>
      rw [poll05_query_eq t orc nowMs iso u] at h
      by_cases hgate : u.query = some t
      · rw [if_pos hgate] at h
        injection h with h1 h2
        subst h1
        exact ⟨⟨rfl, rfl, rfl, rfl, rfl, rfl⟩, Or.inl ⟨rfl, rfl, rfl, rfl⟩⟩
      · rw [if_neg hgate] at h
        rcases hx : Part005.extractDateWithOpenAI u.openaiKey orc with ⟨r, called⟩
        rw [hx] at h
        cases r with
        | none =>
          injection h with h1 h2
          subst h1
          exact ⟨⟨rfl, rfl, rfl, rfl, rfl, rfl⟩, Or.inl ⟨rfl, rfl, rfl, rfl⟩⟩
        | some dstr =>
          dsimp only at h
          cases hc : Part005.calculateDaysLived dstr nowMs with
          | none =>
            rw [hc] at h
            injection h with h1 h2
            subst h1
            exact ⟨⟨rfl, rfl, rfl, rfl, rfl, rfl⟩, Or.inl ⟨rfl, rfl, rfl, rfl⟩⟩
          | some days =>
            rw [hc] at h
            injection h with h1 h2
            subst h1
            exact ⟨⟨rfl, rfl, rfl, rfl, rfl, rfl⟩,
              Or.inr ⟨t, dstr, days, rfl, rfl, hc, rfl⟩⟩
  · intro f orc nowMs iso u u' c h
    cases f with
    | reject | notOk | notOkTextThrow | badJson | noQuery =>
      rw [pollA_other_eq _ orc nowMs iso u (by intro t ht; cases ht)] at h
      injection h with h1 h2
      subst h1
      exact ⟨⟨rfl, rfl, rfl, rfl, rfl, rfl, rfl⟩, Or.inl ⟨rfl, rfl, rfl, rfl⟩⟩
    | query t =>
      have hcases : u.gooUrl = none ∨ ∃ g, u.gooUrl = some g := by
        cases u.gooUrl
        · exact Or.inl rfl
        · exact Or.inr ⟨_, rfl⟩
      rcases hcases with hg | ⟨g, hg⟩
      · rw [pollA_noUrl_eq _ orc nowMs iso u hg] at h
        injection h with h1 h2
        subst h1
        exact ⟨⟨rfl, rfl, rfl, rfl, rfl, rfl, rfl⟩, Or.inl ⟨rfl, rfl, rfl, rfl⟩⟩
      · rw [pollA_query_eq t orc nowMs iso u g hg] at h
        by_cases hgate : some t = u.lastProcessedQuery
        · rw [if_pos hgate] at h
          injection h with h1 h2
          subst h1
          exact ⟨⟨rfl, rfl, rfl, rfl, rfl, rfl, rfl⟩, Or.inl ⟨rfl, rfl, rfl, rfl⟩⟩
        · rw [if_neg hgate] at h
          rcases hx : Part000.extractDateWithOpenAI u.openaiApiKey orc with ⟨r, called⟩
          rw [hx] at h
          cases r with
          | none =>
            injection h with h1 h2
            subst h1
            exact ⟨⟨rfl, rfl, rfl, rfl, rfl, rfl, rfl⟩, Or.inl ⟨rfl, rfl, rfl, rfl⟩⟩
          | some dstr =>
            dsimp only at h
            cases hc : Part000.calculateDaysLived dstr nowMs with
            | none =>
              rw [hc] at h
              injection h with h1 h2
              subst h1
              exact ⟨⟨rfl, rfl, rfl, rfl, rfl, rfl, rfl⟩, Or.inl ⟨rfl, rfl, rfl, rfl⟩⟩
            | some days =>
              rw [hc] at h
              injection h with h1 h2
              subst h1
              exact ⟨⟨rfl, rfl, rfl, rfl, rfl, rfl, rfl⟩,
                Or.inr ⟨t, dstr, days, rfl, rfl, hc, rfl⟩⟩

/-- C2 witness: the amended theorem applied to a concrete failed fetch in
both variants. -/
theorem c2_amended_atomic_commit_witness :
    (Part005.pollUser .notOk .notOk 0 "i"
        ⟨"158", "sk", "US", 2000, true, some 2000, none, none, none, none, none⟩).1.lastUpdated
      = (none : Option String) ∧
    (Part000.pollUser .badJson .notOk 0 "i"
        ⟨"1", some "158", some "u", "sk", 5000, true, some 5000, none, none,
          none, none, none⟩).1.lastUpdated = (none : Option String) := by
  constructor
  · have h := (c2_amended_atomic_commit.1 .notOk .notOk 0 "i"
      ⟨"158", "sk", "US", 2000, true, some 2000, none, none, none, none, none⟩ _ _ rfl).2
    rcases h with h | ⟨t, dstr, n, ht, _⟩
    · exact h.2.2.2
    · cases ht
  · have h := (c2_amended_atomic_commit.2 .badJson .notOk 0 "i"
      ⟨"1", some "158", some "u", "sk", 5000, true, some 5000, none, none,
        none, none, none⟩ _ _ rfl).2
    rcases h with h | ⟨t, dstr, n, ht, _⟩
    · exact h.2.2.2
    · cases ht

/-! ### Claim C3 -/

/-- C3 counterexample: in `src/unnamed/part_000`, when the first run's
extraction fails (oracle returns `notOk`), a second run with the same source
text calls the oracle again (flag `true`), because `lastProcessedQuery` was
never set — the claim's "no oracle call during the second run" fails. -/
theorem c3_counterexample :
    Part000.pollUser (.query "q1") .notOk 0 "t1"
        ⟨"1", some "158", some "u", "sk", 5000, true, some 5000, none, none,
          none, none, none⟩
      = (⟨"1", some "158", some "u", "sk", 5000, true, some 5000, some "q1", none,
          none, none, none⟩, true) ∧
    (Part000.pollUser (.query "q1") (.content "no date in sight") 0 "t2"
        ⟨"1", some "158", some "u", "sk", 5000, true, some 5000, some "q1", none,
          none, none, none⟩).2 = true := by
  decide

/-- C3 (amended): running the poll cycle twice on the same source text is
idempotent as claimed — no oracle call in the second run and a byte-identical
state — unconditionally in `src/server.js` (and `src/unnamed/part_005`,
whose gate sees the stored observed text), and in `src/unnamed/part_000`
precisely when the first run left the text as `lastProcessedQuery` (i.e. it
committed, or the text had already been processed); when the first run's
extraction failed, part_000 deliberately calls the oracle again, as the
counterexample shows. -/
theorem c3_amended_idempotence :
    (∀ (u : ServerJs.User) (t : String) (orc1 orc2 : OracleOutcome) (n1 n2 : Int)
        (i1 i2 : String),
      ServerJs.pollUser (.query t) orc2 n2 i2 (ServerJs.pollUser (.query t) orc1 n1 i1 u).1
        = ((ServerJs.pollUser (.query t) orc1 n1 i1 u).1, false)) ∧
    (∀ (u : Part000.User) (t : String) (orc1 orc2 : OracleOutcome) (n1 n2 : Int)
        (i1 i2 : String),
      (Part000.pollUser (.query t) orc1 n1 i1 u).1.lastProcessedQuery = some t →
      Part000.pollUser (.query t) orc2 n2 i2 (Part000.pollUser (.query t) orc1 n1 i1 u).1
        = ((Part000.pollUser (.query t) orc1 n1 i1 u).1, false)) := by
  constructor
  · intro u t orc1 orc2 n1 n2 i1 i2
    have hq : (ServerJs.pollUser (.query t) orc1 n1 i1 u).1.query = some t := by
      rw [pollSJ_query_eq t orc1 n1 i1 u]
      by_cases hgate : u.query = some t
      · rw [if_pos hgate]; exact hgate
      · rw [if_neg hgate]
        rcases hx : ServerJs.extractDateWithOpenAI u.openaiKey orc1 with ⟨r, called⟩
        cases r <;> rfl
    rw [pollSJ_query_eq t orc2 n2 i2 _, if_pos hq]
  · intro u t orc1 orc2 n1 n2 i1 i2 hp
    cases hg : u.gooUrl with
    | none =>
      have h1 : Part000.pollUser (.query t) orc1 n1 i1 u = (u, false) :=
        pollA_noUrl_eq _ orc1 n1 i1 u hg
      rw [h1]
      exact pollA_noUrl_eq _ orc2 n2 i2 u hg
    | some g =>
      have hq := pollA_query_sets_lastQuery t orc1 n1 i1 u g hg
      have hgu : (Part000.pollUser (.query t) orc1 n1 i1 u).1.gooUrl = some g := by
        rw [pollA_preserves_gooUrl (.query t) orc1 n1 i1 u, hg]
      rw [pollA_query_eq t orc2 n2 i2 _ g hgu, if_pos hp.symm,
        userA_set_lastQuery_self _ _ hq]

/-- C3 witness: the amended theorem applied to a concrete user in both
variants (the part_000 run commits on `"2008-03-06"`, so its hypothesis is
discharged by evaluation). -/
theorem c3_amended_idempotence_witness :
    ServerJs.pollUser (.query "q") (.content "x") 0 "t2"
        (ServerJs.pollUser (.query "q") .notOk 0 "t1"
          ⟨"158", "sk", "US", 2000, true, some 2000, none, none, none, none, none⟩).1
      = ((ServerJs.pollUser (.query "q") .notOk 0 "t1"
          ⟨"158", "sk", "US", 2000, true, some 2000, none, none, none, none, none⟩).1,
         false) ∧
    Part000.pollUser (.query "q") .notOk 0 "t2"
        (Part000.pollUser (.query "q") (.content "2008-03-06") 86400000 "t1"
          ⟨"1", some "158", some "u", "sk", 5000, true, some 5000, none, none,
            none, none, none⟩).1
      = ((Part000.pollUser (.query "q") (.content "2008-03-06") 86400000 "t1"
          ⟨"1", some "158", some "u", "sk", 5000, true, some 5000, none, none,
            none, none, none⟩).1, false) :=
  ⟨c3_amended_idempotence.1
      ⟨"158", "sk", "US", 2000, true, some 2000, none, none, none, none, none⟩
      "q" .notOk (.content "x") 0 0 "t1" "t2",
   c3_amended_idempotence.2
      ⟨"1", some "158", some "u", "sk", 5000, true, some 5000, none, none,
        none, none, none⟩
      "q" (.content "2008-03-06") .notOk 86400000 0 "t1" "t2" (by decide)⟩

/-! ### Claim C5 -/

/-- The `\d{4}-\d{2}-\d{2}` shape of an accepted date, as a predicate on the
character list. -/
def dateShape : List Char → Bool
  | [a, b, c, d, '-', e, f, '-', g, h] =>
    a.isDigit && b.isDigit && c.isDigit && d.isDigit &&
    e.isDigit && f.isDigit && g.isDigit && h.isDigit
  | _ => false

theorem matchDateAt_shape (l m : List Char) (h : OracleParse.matchDateAt l = some m) :
    dateShape m = true := by
  unfold OracleParse.matchDateAt at h
  split at h
  · split at h
    · rename_i hcond
      cases h
      simpa [dateShape] using hcond
    · cases h
  · cases h

theorem findDate_shape (l m : List Char) (h : OracleParse.findDate l = some m) :
    dateShape m = true := by
  induction l with
  | nil => cases h
  | cons c rest ih =>
    unfold OracleParse.findDate at h
    cases hm : OracleParse.matchDateAt (c :: rest) with
    | some m' =>
      rw [hm] at h
      cases h
      exact matchDateAt_shape _ _ hm
    | none =>
      rw [hm] at h
      exact ih h

/-- C5 counterexample: the response `"```2008-03-06```"` — a date wrapped
only in a markdown code fence — contains a date-shaped substring, yet
`extractDateWithOpenAI` of `src/unnamed/part_005` (and part_000) rejects it:
the regex `/```[\s\S]*?```/` deletes the whole fenced block, date included,
so the result is the logged failure, not the date the claim requires. -/
theorem c5_counterexample :
    OracleParse.findDateStr (OracleParse.jsTrim "```2008-03-06```") = some "2008-03-06" ∧
    OracleParse.parseContent05 "```2008-03-06```" = .failure := by
  decide

/-- C5 (amended): after trimming, a case-insensitive match of the `"null"`
sentinel yields NoDate in every variant; any accepted result is a
`\d{4}-\d{2}-\d{2}`-shaped string, and the absence of such a substring after
the fence/backtick rewriting is the logged failure with no update.  But the
fence handling differs from the claim: part_000/part_005 delete each
triple-backtick block together with its contents — so a date wrapped only in
a code fence is rejected there (single backticks are stripped and accepted),
while `src/server.js` does no stripping at all and accepts a fence-wrapped
date because the regex search ignores the backticks. -/
theorem c5_amended_extraction :
    (∀ s, OracleParse.jsLower (OracleParse.jsTrim s) = "null" →
      OracleParse.parseContent05 s = .noDate ∧ OracleParse.parseContentSJ s = .noDate) ∧
    (∀ s d, OracleParse.parseContent05 s = .date d → dateShape d.toList = true) ∧
    (∀ s d, OracleParse.parseContentSJ s = .date d → dateShape d.toList = true) ∧
    (OracleParse.parseContent05 "```2008-03-06```" = .failure ∧
     OracleParse.parseContent05 "`2008-03-06`" = .date "2008-03-06" ∧
     OracleParse.parseContentSJ "```2008-03-06```" = .date "2008-03-06") ∧
    (∀ s, OracleParse.jsTrim s ≠ "" →
      OracleParse.jsLower (OracleParse.jsTrim s) ≠ "null" →
      OracleParse.findDate
        (OracleParse.stripTicks (OracleParse.stripFences (OracleParse.jsTrim s).toList))
        = none →
      OracleParse.parseContent05 s = .failure) := by
  refine ⟨?_, ?_, ?_, ⟨by decide, by decide, by decide⟩, ?_⟩
  · intro s h
    have hne : OracleParse.jsTrim s ≠ "" := by
      intro he
      rw [he] at h
      exact absurd h (by decide)
    constructor
    · simp only [OracleParse.parseContent05]
      rw [if_neg hne, if_pos h]
    · simp only [OracleParse.parseContentSJ]
      rw [if_neg hne, if_pos h]
  · intro s d h
    simp only [OracleParse.parseContent05] at h
    by_cases h1 : OracleParse.jsTrim s = ""
    · rw [if_pos h1] at h
      cases h
    · rw [if_neg h1] at h
      by_cases h2 : OracleParse.jsLower (OracleParse.jsTrim s) = "null"
      · rw [if_pos h2] at h
        cases h
      · rw [if_neg h2] at h
        cases hf : OracleParse.findDate
            (OracleParse.stripTicks
              (OracleParse.stripFences (OracleParse.jsTrim s).toList)) with
        | some m =>
          rw [hf] at h
          injection h with hd
          subst hd
          exact findDate_shape _ _ hf
        | none =>
          rw [hf] at h
          cases h
  · intro s d h
    simp only [OracleParse.parseContentSJ] at h
    by_cases h1 : OracleParse.jsTrim s = ""
    · rw [if_pos h1] at h
      cases h
    · rw [if_neg h1] at h
      by_cases h2 : OracleParse.jsLower (OracleParse.jsTrim s) = "null"
      · rw [if_pos h2] at h
        cases h
      · rw [if_neg h2] at h
        cases hf : OracleParse.findDate (OracleParse.jsTrim s).toList with
        | some m =>
          rw [hf] at h
          injection h with hd
          subst hd
          exact findDate_shape _ _ hf
        | none =>
          rw [hf] at h
          cases h
  · intro s h1 h2 hf
    simp only [OracleParse.parseContent05]
    rw [if_neg h1, if_neg h2, hf]

/-- C5 witness: the amended theorem applied to the sentinel `" NULL "` and
to a concrete accepted response. -/
theorem c5_amended_extraction_witness :
    OracleParse.parseContent05 " NULL " = .noDate ∧
    dateShape "2008-03-06".toList = true :=
  ⟨(c5_amended_extraction.1 " NULL " (by decide)).1,
   c5_amended_extraction.2.1 "The date is 2008-03-06." "2008-03-06" (by decide)⟩

/-! ### Claim C6 -/

/-- Modelled from the spec: the day count as the floor of the elapsed
milliseconds from the date's local midnight in the reference timezone to the
reference instant, divided by one day's milliseconds. -/
def specDayCount (midnightMs refMs : Int) : Int :=
  Int.fdiv (refMs - midnightMs) JsDate.MS_PER_DAY

/-- C6 counterexample: `calculateDaysLived` of `src/unnamed/part_005`
subtracts one after the floor division, so for date 2008-03-06 at reference
instant 2008-03-07T00:00:00 in the same zone it returns 0 where the claim
requires 1, and for a same-day reference instant (noon of 2008-03-06) it
returns −1 where the claim requires 0 and never a negative value. -/
theorem c6_counterexample :
    Part005.calculateDaysLived "2008-03-06" (JsDate.utcMidnightMs 2008 3 7) = some 0 ∧
    Part005.calculateDaysLived "2008-03-06" (JsDate.utcMidnightMs 2008 3 6 + 43200000)
      = some (-1) := by
  decide

/-- C6 (amended): `calculateDaysLived` of `src/server.js` (the cited LA
variant) is exactly the claimed floor formula from the date's midnight in the
fixed reference offset: a reference instant on the date's own day yields 0,
on the following day yields 1, any reference instant not before the midnight
yields a non-negative count, and the round-trip value for 2008-03-06 at
2008-03-07T00:00:00 in the same zone is 1.  `src/unnamed/part_005` subtracts
one from this formula, failing all of these, as the counterexample shows. -/
theorem c6_amended_day_count :
    (∀ (ds : String) (y m d : Nat) (now : Int),
      JsDate.parseIsoDate ds = some (y, m, d) →
      ServerJs.calculateDaysLived ds now
        = some (specDayCount (JsDate.utcMidnightMs y m d + ServerJs.LA_OFFSET_MS) now) ∧
      (JsDate.utcMidnightMs y m d + ServerJs.LA_OFFSET_MS ≤ now →
        ∃ k, ServerJs.calculateDaysLived ds now = some k ∧ 0 ≤ k) ∧
      (JsDate.utcMidnightMs y m d + ServerJs.LA_OFFSET_MS ≤ now →
        now < JsDate.utcMidnightMs y m d + ServerJs.LA_OFFSET_MS + JsDate.MS_PER_DAY →
        ServerJs.calculateDaysLived ds now = some 0) ∧
      (JsDate.utcMidnightMs y m d + ServerJs.LA_OFFSET_MS + JsDate.MS_PER_DAY ≤ now →
        now < JsDate.utcMidnightMs y m d + ServerJs.LA_OFFSET_MS + 2 * JsDate.MS_PER_DAY →
        ServerJs.calculateDaysLived ds now = some 1)) ∧
    ServerJs.calculateDaysLived "2008-03-06"
        (JsDate.utcMidnightMs 2008 3 7 + ServerJs.LA_OFFSET_MS) = some 1 := by
  constructor
  · intro ds y m d now hp
    have hbirth : ServerJs.birthInLA ds
        = some (JsDate.utcMidnightMs y m d + ServerJs.LA_OFFSET_MS) := by
      unfold ServerJs.birthInLA
      rw [hp]
      rfl
    have hcd : ∀ n : Int, ServerJs.calculateDaysLived ds n
        = some (Int.fdiv (n - (JsDate.utcMidnightMs y m d + ServerJs.LA_OFFSET_MS))
            JsDate.MS_PER_DAY) := by
      intro n
      unfold ServerJs.calculateDaysLived
      rw [hbirth]
      rfl
    refine ⟨hcd now, ?_, ?_, ?_⟩
    · intro h1
      refine ⟨_, hcd now, ?_⟩
      rw [Int.fdiv_eq_ediv _ (by decide)]
      simp only [JsDate.MS_PER_DAY] at h1 ⊢
      generalize JsDate.utcMidnightMs y m d = B at h1 ⊢
      generalize ServerJs.LA_OFFSET_MS = C at h1 ⊢
      omega
    · intro h1 h2
      rw [hcd now]
      refine congrArg some ?_
      rw [Int.fdiv_eq_ediv _ (by decide)]
      simp only [JsDate.MS_PER_DAY] at h1 h2 ⊢
      generalize JsDate.utcMidnightMs y m d = B at h1 h2 ⊢
      generalize ServerJs.LA_OFFSET_MS = C at h1 h2 ⊢
      omega
    · intro h1 h2
      rw [hcd now]
      refine congrArg some ?_
      rw [Int.fdiv_eq_ediv _ (by decide)]
      simp only [JsDate.MS_PER_DAY] at h1 h2 ⊢
      generalize JsDate.utcMidnightMs y m d = B at h1 h2 ⊢
      generalize ServerJs.LA_OFFSET_MS = C at h1 h2 ⊢
      omega
  · decide

/-- C6 witness: the amended theorem applied to 2008-03-06 with a same-day
(noon) reference instant, giving day count 0. -/
theorem c6_amended_day_count_witness :
    ServerJs.calculateDaysLived "2008-03-06"
        (JsDate.utcMidnightMs 2008 3 6 + ServerJs.LA_OFFSET_MS + 43200000) = some 0 :=
  ((c6_amended_day_count.1 "2008-03-06" 2008 3 6
      (JsDate.utcMidnightMs 2008 3 6 + ServerJs.LA_OFFSET_MS + 43200000)
      (by decide)).2.2.1 (by decide) (by decide))
